import Mathlib

/-!
# Chat proxy (`api/chat.js`) and chat controller (`src/components/Chatbot.jsx`)

A shallow embedding of the two pieces of the repository that carry a protocol:

* `handler`, the serverless function that validates a request, calls the
  upstream completion API once and normalises the outcome;
* `handleSend`, the React callback that appends the outgoing turn, calls the
  proxy and folds the outcome back into the transcript.

JavaScript values are embedded as the datatype `JSVal`; an operation that can
throw returns `Except JSError _`; an awaited promise is embedded as its
outcome (`Except.ok` for a resolved promise, `Except.error` for a rejected
one).  A promise that never settles has no outcome and is not modelled.
-/

namespace Chat

/-! ## JavaScript values -/

/-- A JavaScript number, represented by the three observations the program can
make of it: whether it is truthy (neither zero nor NaN), whether it is finite
(`JSON.stringify` writes a non-finite number as `null`) and its `ToString`
text. -/
structure JSNumber where
  truthy : Bool
  finite : Bool
  text : String
  deriving Repr

/-- The JavaScript values the program handles: the results of `JSON.parse`
together with `undefined` (the value of a missing property). An object is the
list of its own properties. -/
inductive JSVal where
  | undefined : JSVal
  | null : JSVal
  | bool (b : Bool) : JSVal
  | num (n : JSNumber) : JSVal
  | str (s : String) : JSVal
  | arr (items : List JSVal) : JSVal
  | obj (fields : List (String × JSVal)) : JSVal

/-- A thrown `Error` object; the program reads only its `message`. -/
structure JSError where
  message : String
  deriving Repr, DecidableEq

/-- The own property `key` of an object given by its property list. -/
def lookup (key : String) : List (String × JSVal) → Option JSVal
  | [] => none
  | (k, v) :: rest => if k = key then some v else lookup key rest

/-- The text the runtime uses for `undefined` and `null` in a `TypeError`. -/
def nullishName : JSVal → String
  | .null => "null"
  | _ => "undefined"

/-- The `TypeError` of reading property `key` of `undefined` or `null`. The
wording is the runtime's (V8), not the program's. -/
def readError (base : JSVal) (key : String) : JSError :=
  ⟨"Cannot read properties of " ++ nullishName base ++ " (reading \x27" ++ key ++ "\x27)"⟩

/-- Property read `base.key` for the named keys the program uses (`message`,
`error`, `choices`, `content`, `response`): none of them is defined on a
built-in prototype or is an array index, so only the own properties of an
object are found. Reading from `undefined` or `null` throws. -/
def getProp (base : JSVal) (key : String) : Except JSError JSVal :=
  match base with
  | .undefined => .error (readError base key)
  | .null => .error (readError base key)
  | .obj fields => .ok ((lookup key fields).getD .undefined)
  | _ => .ok .undefined

/-- The `TypeError` of destructuring `undefined` or `null`. The wording is the
runtime's (V8), not the program's. -/
def destructureError (base : JSVal) (key : String) : JSError :=
  ⟨"Cannot destructure property \x27" ++ key ++ "\x27 of \x27req.body\x27 as it is " ++
    nullishName base ++ "."⟩

/-- The declaration `const { key } = base`: the property `key` of `base`, a
`TypeError` when `base` is `undefined` or `null`. -/
def destructure (base : JSVal) (key : String) : Except JSError JSVal :=
  match base with
  | .undefined => .error (destructureError base key)
  | .null => .error (destructureError base key)
  | _ => getProp base key

/-- Indexed read `base[i]`: an array element, a character of a string, the own
property named by the index of an object. Reading from `undefined` or `null`
throws. -/
def getIndex (base : JSVal) (i : Nat) : Except JSError JSVal :=
  match base with
  | .undefined => .error (readError base (toString i))
  | .null => .error (readError base (toString i))
  | .obj fields => .ok ((lookup (toString i) fields).getD .undefined)
  | .arr items => .ok (items.getD i .undefined)
  | .str s =>
      match s.data.get? i with
      | some c => .ok (.str (String.mk [c]))
      | none => .ok .undefined
  | _ => .ok .undefined

/-- Optional chaining `base?.key`: `undefined` when `base` is nullish. -/
def getPropOpt (base : JSVal) (key : String) : JSVal :=
  match base with
  | .undefined => .undefined
  | .null => .undefined
  | _ => match getProp base key with
    | .ok v => v
    | .error _ => .undefined

/-- JavaScript truthiness (`ToBoolean`). -/
def truthy : JSVal → Bool
  | .undefined => false
  | .null => false
  | .bool b => b
  | .num n => n.truthy
  | .str s => s ≠ ""
  | .arr _ => true
  | .obj _ => true

/-- The operator `a || b`. -/
def jsOr (a b : JSVal) : JSVal := if truthy a then a else b

/-- The code points `String.prototype.trim` strips: ECMAScript WhiteSpace and
LineTerminator. -/
def isJSWhiteSpace (c : Char) : Bool :=
  c.toNat ∈ [9, 10, 11, 12, 13, 32, 160, 5760, 8232, 8233, 8239, 8287, 12288, 65279]
    || (8192 ≤ c.toNat && c.toNat ≤ 8202)

/-- The method `String.prototype.trim`. -/
def trim (s : String) : String :=
  String.mk ((s.data.dropWhile isJSWhiteSpace).reverse.dropWhile isJSWhiteSpace).reverse

/-- Whether `sub` occurs in the character list at some position. -/
def includesChars : List Char → List Char → Bool
  | [], sub => sub.isEmpty
  | c :: cs, sub => sub.isPrefixOf (c :: cs) || includesChars cs sub

/-- The method `String.prototype.includes`. -/
def includes (s sub : String) : Bool := includesChars s.data sub.data

/-- One step of `Array.prototype.join`: the text of the first element, then a
comma and the text of the rest when there is a rest. The first error thrown
is the one that propagates. -/
def joinStep (first : Except JSError String) (more : Bool) (rest : Except JSError String) :
    Except JSError String :=
  match first, rest with
  | .error e, _ => .error e
  | .ok _, .error e => .error e
  | .ok a, .ok b => .ok (if more then a ++ "," ++ b else a)

mutual
/-- The abstract operation `ToString` on a parsed JSON value, as run by
`new Error(v)`. An object with an own `toString` property (never callable in
parsed JSON) cannot be converted and throws. -/
def jsToString : JSVal → Except JSError String
  | .undefined => .ok "undefined"
  | .null => .ok "null"
  | .bool b => .ok (if b then "true" else "false")
  | .num n => .ok n.text
  | .str s => .ok s
  | .arr items => jsJoin items
  | .obj fields =>
      match lookup "toString" fields with
      | some _ => .error ⟨"Cannot convert object to primitive value"⟩
      | none => .ok "[object Object]"
/-- The method `Array.prototype.join` with the default separator: a nullish
element is written as the empty string. -/
def jsJoin : List JSVal → Except JSError String
  | [] => .ok ""
  | .undefined :: rest => joinStep (.ok "") (!rest.isEmpty) (jsJoin rest)
  | .null :: rest => joinStep (.ok "") (!rest.isEmpty) (jsJoin rest)
  | v :: rest => joinStep (jsToString v) (!rest.isEmpty) (jsJoin rest)
end

mutual
/-- The value `JSON.parse(JSON.stringify(v))`: what the receiver of a JSON
body reads. Properties holding `undefined` are left out, `undefined` array
elements and non-finite numbers become `null`. -/
def jsonRoundTrip : JSVal → JSVal
  | .undefined => .undefined
  | .null => .null
  | .bool b => .bool b
  | .num n => if n.finite then .num n else .null
  | .str s => .str s
  | .arr items => .arr (jsonRoundTripItems items)
  | .obj fields => .obj (jsonRoundTripFields fields)
/-- The elements of an array after `JSON.parse(JSON.stringify(_))`. -/
def jsonRoundTripItems : List JSVal → List JSVal
  | [] => []
  | .undefined :: rest => .null :: jsonRoundTripItems rest
  | v :: rest => jsonRoundTrip v :: jsonRoundTripItems rest
/-- The properties of an object after `JSON.parse(JSON.stringify(_))`. -/
def jsonRoundTripFields : List (String × JSVal) → List (String × JSVal)
  | [] => []
  | (_, .undefined) :: rest => jsonRoundTripFields rest
  | (k, v) :: rest => (k, jsonRoundTrip v) :: jsonRoundTripFields rest
end

/-! ## The proxy: `api/chat.js` -/

/-- The persona instruction sent as the system message (`systemPrompt`). -/
def systemPrompt : String :=
  "You are a helpful assistant that answers questions about Ananya Dabas. \n" ++
  "Here are key details about Ananya:\n\n" ++
  "Professional Background:\n" ++
  "- She is a software developer with a passion for creating innovative web solutions\n" ++
  "- Her favorite tech stack includes:\n" ++
  "  * Frontend: React.js, Three.js, TailwindCSS\n" ++
  "  * Backend: Node.js, Express.js\n" ++
  "  * Database: MongoDB\n" ++
  "  * Tools: Git, VS Code\n" ++
  "- She created this 3D portfolio website using React and Three.js\n\n" ++
  "Hobbies and Interests:\n" ++
  "- She\x27s a huge Potterhead (Harry Potter fan) with deep knowledge of the wizarding world\n" ++
  "- She enjoys playing basketball\n" ++
  "- She participates in local tech meetups and developer communities\n\n" ++
  "Fun Facts:\n" ++
  "- She has memorized the entire periodic table (all 118 elements!)\n" ++
  "- She combines her love for science with her technical skills\n\n" ++
  "Outside of Coding:\n" ++
  "- She\x27s often found discussing Harry Potter theories and favorite moments\n" ++
  "- She enjoys playing basketball to stay active and competitive\n" ++
  "- She loves sharing her knowledge about chemistry and the periodic table\n\n" ++
  "Please answer questions in a friendly and conversational tone."

/-- One entry of the `messages` array sent upstream. -/
structure ChatMessage where
  role : String
  content : JSVal

/-- The request `fetch` sends to the upstream completion API. -/
structure UpstreamRequest where
  url : String
  authorization : String
  model : String
  messages : List ChatMessage

/-- A `fetch` response: its status and the outcome of `response.json()`, which
rejects when the body is not parseable JSON. -/
structure FetchResponse where
  status : Nat
  json : Except JSError JSVal

/-- The getter `response.ok`: the status is in the range 200 to 299. -/
def FetchResponse.ok (r : FetchResponse) : Bool := 200 ≤ r.status && r.status ≤ 299

/-- The incoming request: `req.method` and `req.body`. -/
structure Request where
  method : String
  body : JSVal

/-- What the handler sends: `res.status(status).json(body)`. -/
structure Response where
  status : Nat
  body : JSVal

/-- The body `{ error: detail }`. -/
def errorBody (detail : JSVal) : JSVal := .obj [("error", detail)]

/-- The test `!message || !message.trim()`. A truthy value that is not a
string has no `trim` method, so the call throws a `TypeError`. -/
def messageMissing (message : JSVal) : Except JSError Bool :=
  if !truthy message then .ok true
  else match message with
    | .str s => .ok (trim s = "")
    | _ => .error ⟨"message.trim is not a function"⟩

/-- Lines 76 to 85: the value of `errorMessage`, given the status and the value
of `errorData.error`. -/
def failureDetail (statusCode : Nat) (err : JSVal) : JSVal :=
  let errorMessage := jsOr (getPropOpt err "message") (.str "OpenAI API request failed")
  if statusCode = 429 then .str "Rate limit exceeded. Please wait a moment and try again."
  else if statusCode = 401 then
    .str "API authentication failed. Please check your OpenAI API key."
  else if statusCode = 500 then .str "OpenAI service error. Please try again later."
  else errorMessage

/-- Lines 73 to 90: the answer to an upstream response that is not ok. -/
def upstreamFailure (response : FetchResponse) : Except JSError Response :=
  match response.json with
  | .error e => .error e
  | .ok errorData =>
    match getProp errorData "error" with
    | .error e => .error e
    | .ok err => .ok ⟨response.status, errorBody (failureDetail response.status err)⟩

/-- Lines 92 to 95: the answer to an upstream response that is ok. -/
def upstreamSuccess (response : FetchResponse) : Except JSError Response :=
  match response.json with
  | .error e => .error e
  | .ok result =>
    match getProp result "choices" with
    | .error e => .error e
    | .ok choices =>
      match getIndex choices 0 with
      | .error e => .error e
      | .ok first =>
        match getProp first "message" with
        | .error e => .error e
        | .ok msg =>
          match getProp msg "content" with
          | .error e => .error e
          | .ok botResponse => .ok ⟨200, .obj [("response", botResponse)]⟩

/-- Lines 52 to 71: the upstream call for the user's `message`. -/
def completionRequest (apiKey : String) (message : JSVal) : UpstreamRequest :=
  { url := "https://api.openai.com/v1/chat/completions"
    authorization := "Bearer " ++ apiKey
    model := "gpt-3.5-turbo"
    messages := [⟨"system", .str systemPrompt⟩, ⟨"user", message⟩] }

/-- The body of the `try` block (lines 17 to 95): the response returned or the
error thrown, with the upstream calls made. -/
def handlerTry (apiKey : String) (fetch : UpstreamRequest → Except JSError FetchResponse)
    (req : Request) : Except JSError Response × List UpstreamRequest :=
  match destructure req.body "message" with
  | .error e => (.error e, [])
  | .ok message =>
    match messageMissing message with
    | .error e => (.error e, [])
    | .ok true => (.ok ⟨400, errorBody (.str "Message is required")⟩, [])
    | .ok false =>
      let call := completionRequest apiKey message
      match fetch call with
      | .error e => (.error e, [call])
      | .ok response =>
        if !response.ok then (upstreamFailure response, [call])
        else (upstreamSuccess response, [call])

/-- The function `handler` of `api/chat.js`, given the value of
`process.env.OPENAI_API_KEY` and the outcome of the upstream `fetch`. It
returns the response sent and the list of upstream calls made. -/
def handler (apiKey : Option String) (fetch : UpstreamRequest → Except JSError FetchResponse)
    (req : Request) : Response × List UpstreamRequest :=
  if req.method ≠ "POST" then (⟨405, errorBody (.str "Method not allowed")⟩, [])
  else
    match apiKey with
    | none => (⟨500, errorBody (.str "OpenAI API key is not configured on the server")⟩, [])
    | some key =>
      if key = "" then
        (⟨500, errorBody (.str "OpenAI API key is not configured on the server")⟩, [])
      else
        match handlerTry key fetch req with
        | (.ok res, calls) => (res, calls)
        | (.error error, calls) =>
          (⟨500, errorBody (jsOr (.str error.message) (.str "Internal server error"))⟩, calls)

/-! ## The controller: `handleSend` of `src/components/Chatbot.jsx` -/

/-- One entry of the `messages` state. The text of a bot turn is whatever the
proxy answered, so it is a JavaScript value. -/
structure Turn where
  message : JSVal
  sender : String
  direction : String

/-- The React state `handleSend` reads and writes. -/
structure ChatState where
  messages : List Turn
  isTyping : Bool
  inputValue : String

/-- The request `handleSend` passes to `fetch`; `body` is the value given to
`JSON.stringify`. -/
structure ProxyCall where
  url : String
  method : String
  body : JSVal

/-- One run of `handleSend`: the proxy requests issued, the state shown while
the request is outstanding (`none` when the call returned at once) and the
state after the last `set` call. -/
structure SendRun where
  requests : List ProxyCall
  awaiting : Option ChatState
  final : ChatState

/-- Lines 73 to 79: the value of `botResponse`, or the error thrown. -/
def readReply (response : FetchResponse) : Except JSError JSVal :=
  if !response.ok then
    match response.json with
    | .error e => .error e
    | .ok errorData =>
      match getProp errorData "error" with
      | .error e => .error e
      | .ok err =>
        match jsToString (jsOr err (.str "API request failed")) with
        | .error e => .error e
        | .ok text => .error ⟨text⟩
  else
    match response.json with
    | .error e => .error e
    | .ok result => getProp result "response"

/-- Lines 88 to 99: the text shown for a caught error. -/
def failureText (error : JSError) : String :=
  if includes error.message "API key" then
    "API key error: Please check your OpenAI API key configuration on the server."
  else if includes error.message "insufficient_quota" || includes error.message "billing" then
    "Your OpenAI account has run out of credits. Please add billing information or check your usage at platform.openai.com"
  else if includes error.message "rate_limit" then
    "Rate limit exceeded. Please wait a moment and try again."
  else if error.message ≠ "" then "Error: " ++ error.message
  else "I apologize, but I\x27m having trouble processing your request right now."

/-- The callback `handleSend`, given the outcome of `fetch` and the state of
the render it was created in. -/
def handleSend (fetch : ProxyCall → Except JSError FetchResponse) (s : ChatState) : SendRun :=
  if trim s.inputValue = "" then ⟨[], none, s⟩
  else
    let newMessages := s.messages ++
        [{ message := .str s.inputValue, sender := "user", direction := "outgoing" }]
    let outcome : Except JSError JSVal :=
      match fetch { url := "/api/chat", method := "POST", body := .obj [("message", .str s.inputValue)] } with
      | .error e => .error e
      | .ok response => readReply response
    let reply : JSVal :=
      match outcome with
      | .ok botResponse => botResponse
      | .error error => .str (failureText error)
    { requests :=
        [{ url := "/api/chat", method := "POST", body := .obj [("message", .str s.inputValue)] }]
      awaiting := some { s with messages := newMessages, isTyping := true }
      final := ⟨newMessages ++
          [{ message := reply, sender := "bot", direction := "incoming" }], false, ""⟩ }

/-! ## The controller wired to the proxy -/

/-- The deployment that serves `/api/chat`: the platform parses the JSON
request body into `req.body`, runs `handler`, and the client reads the JSON
that `res.status(_).json(_)` wrote. -/
def viaHandler (apiKey : Option String) (upstream : UpstreamRequest → Except JSError FetchResponse)
    (call : ProxyCall) : Except JSError FetchResponse :=
  let res := (handler apiKey upstream ⟨call.method, jsonRoundTrip call.body⟩).1
  .ok ⟨res.status, .ok (jsonRoundTrip res.body)⟩

/-! ## Inputs used in the examples below -/

/-- A proxy that answers 200 with the reply `Hello!`. -/
def helloProxy (_ : ProxyCall) : Except JSError FetchResponse :=
  .ok ⟨200, .ok (.obj [("response", .str "Hello!")])⟩

/-- A controller state with one turn in the transcript, a request outstanding
and a second text typed into the input box. -/
def awaitingState : ChatState := ⟨[{ message := .str "hi", sender := "user", direction := "outgoing" }], true, "and more"⟩

/-- A POST request with the body `{ message: "hi" }`. -/
def hiRequest : Request := ⟨"POST", .obj [("message", .str "hi")]⟩

/-- A POST request that carries no body: `req.body` is `undefined`. -/
def emptyRequest : Request := ⟨"POST", .undefined⟩

/-- An upstream that answers 502 with a body that is not JSON. -/
def badGateway (_ : UpstreamRequest) : Except JSError FetchResponse :=
  .ok ⟨502, .error ⟨"Unexpected token < in JSON at position 0"⟩⟩

/-- An upstream that answers 503 with the JSON body `null`. -/
def nullFailure (_ : UpstreamRequest) : Except JSError FetchResponse :=
  .ok ⟨503, .ok .null⟩

/-- An upstream that answers with the given status and the JSON body
`{ error: { message: "upstream says no" } }`. -/
def failingUpstream (status : Nat) (_ : UpstreamRequest) : Except JSError FetchResponse :=
  .ok ⟨status, .ok (.obj [("error", .obj [("message", .str "upstream says no")])])⟩

/-- An upstream that answers 200 with the given JSON body. -/
def answeringUpstream (body : JSVal) (_ : UpstreamRequest) : Except JSError FetchResponse :=
  .ok ⟨200, .ok body⟩

/-- The completion body `{ choices: [{ message: { content: "Hello!" } }] }`. -/
def helloCompletion : JSVal :=
  .obj [("choices", .arr [.obj [("message", .obj [("content", .str "Hello!")])]])]

/-- The completion body `{ choices: [{ message: {} }] }`, with no content. -/
def noContentCompletion : JSVal :=
  .obj [("choices", .arr [.obj [("message", .obj [])]])]

/-- The completion body `{ choices: [{ message: { content: null } }] }`. -/
def nullContentCompletion : JSVal :=
  .obj [("choices", .arr [.obj [("message", .obj [("content", .null)])]])]

/-! ## Facts about `trim` -/

theorem dropWhile_eq_nil_of_all (p : Char → Bool) (l : List Char)
    (h : ∀ c ∈ l, p c = true) : l.dropWhile p = [] := by
  induction l with
  | nil => rfl
  | cons a l ih =>
    have ha : p a = true := h a (List.mem_cons_self a l)
    have hl : ∀ c ∈ l, p c = true := fun c hc => h c (List.mem_cons_of_mem a hc)
    simp [List.dropWhile, ha, ih hl]

theorem trim_eq_empty_of_whitespace (text : String)
    (h : ∀ c ∈ text.data, isJSWhiteSpace c = true) : trim text = "" := by
  unfold trim
  rw [dropWhile_eq_nil_of_all isJSWhiteSpace text.data h]
  rfl

theorem ne_empty_of_trim_ne_empty (text : String) (h : trim text ≠ "") : text ≠ "" := by
  intro h0
  apply h
  rw [h0]
  rfl

/-! ## The controller alone -/

theorem handleSend_of_trim_empty (fetch : ProxyCall → Except JSError FetchResponse)
    (s : ChatState) (h : trim s.inputValue = "") : handleSend fetch s = ⟨[], none, s⟩ := by
  simp [handleSend, h]

theorem handleSend_of_trim_ne_empty (fetch : ProxyCall → Except JSError FetchResponse)
    (s : ChatState) (h : trim s.inputValue ≠ "") :
    ∃ reply : JSVal, handleSend fetch s =
      { requests :=
          [{ url := "/api/chat", method := "POST", body := .obj [("message", .str s.inputValue)] }]
        awaiting := some ⟨s.messages ++
            [{ message := .str s.inputValue, sender := "user", direction := "outgoing" }], true, s.inputValue⟩
        final := ⟨s.messages ++
            [{ message := .str s.inputValue, sender := "user", direction := "outgoing" }] ++
                [{ message := reply, sender := "bot", direction := "incoming" }], false, ""⟩ } := by
  simp only [handleSend, h, if_false]
  exact ⟨_, rfl⟩

/-- C10. For every controller state, pending or not, and every input text made
only of whitespace (the empty text included), `handleSend` is a no-op: it
issues no proxy request and leaves the transcript, the pending flag and the
rest of the state as they were. -/
theorem handleSend_blank_noop (fetch : ProxyCall → Except JSError FetchResponse)
    (s : ChatState) (h : ∀ c ∈ s.inputValue.data, isJSWhiteSpace c = true) :
    (handleSend fetch s).requests = [] ∧ (handleSend fetch s).final = s ∧
      (handleSend fetch s).awaiting = none := by
  rw [handleSend_of_trim_empty fetch s (trim_eq_empty_of_whitespace _ h)]
  exact ⟨rfl, rfl, rfl⟩

theorem handleSend_blank_noop_witness :
    (handleSend helloProxy ⟨[{ message := .str "hi", sender := "user", direction := "outgoing" }], true, " \t "⟩).requests = [] ∧
      (handleSend helloProxy ⟨[{ message := .str "hi", sender := "user", direction := "outgoing" }], true, " \t "⟩).final
        = ⟨[{ message := .str "hi", sender := "user", direction := "outgoing" }], true, " \t "⟩ ∧
      (handleSend helloProxy ⟨[{ message := .str "hi", sender := "user", direction := "outgoing" }], true, " \t "⟩).awaiting = none :=
  handleSend_blank_noop helloProxy ⟨[{ message := .str "hi", sender := "user", direction := "outgoing" }], true, " \t "⟩ (by decide)

/-- C2. From a state that is not pending (and in fact from any state), with an
input that is not empty after trimming, whatever the outcome of the proxy call
(a response that is ok or not, with any body or an unparseable one, or a
rejected fetch), when `handleSend` completes the pending flag is false and the
transcript is the old one followed by the turn with the input as message,
sender `user` and direction `outgoing`, and one turn with sender `bot` and
direction `incoming`, so it is longer by exactly 2. -/
theorem handleSend_resolves (fetch : ProxyCall → Except JSError FetchResponse)
    (s : ChatState) (hm : trim s.inputValue ≠ "") :
    (handleSend fetch s).final.isTyping = false ∧
      (handleSend fetch s).final.messages.length = s.messages.length + 2 ∧
      ∃ reply : JSVal, (handleSend fetch s).final.messages
        = s.messages ++
            [{ message := .str s.inputValue, sender := "user", direction := "outgoing" },
                { message := reply, sender := "bot", direction := "incoming" }] := by
  obtain ⟨reply, hrun⟩ := handleSend_of_trim_ne_empty fetch s hm
  rw [hrun]
  refine ⟨rfl, by simp, reply, by simp⟩

theorem handleSend_resolves_witness :
    (handleSend (fun _ => .error ⟨"Failed to fetch"⟩) ⟨[], false, "hi"⟩).final.isTyping = false ∧
      (handleSend (fun _ => .error ⟨"Failed to fetch"⟩) ⟨[], false, "hi"⟩).final.messages.length
        = ([] : List Turn).length + 2 ∧
      ∃ reply : JSVal,
        (handleSend (fun _ => .error ⟨"Failed to fetch"⟩) ⟨[], false, "hi"⟩).final.messages
          = [] ++ [{ message := .str "hi", sender := "user", direction := "outgoing" },
              { message := reply, sender := "bot", direction := "incoming" }] :=
  handleSend_resolves (fun _ => .error ⟨"Failed to fetch"⟩) ⟨[], false, "hi"⟩ (by decide)

/-- C3, as stated, fails: in `awaitingState` (pending, transcript of one turn,
input `and more`) a call of `handleSend` issues a proxy request, shows the
outgoing turn at once and ends with three turns and the pending flag false. -/
theorem handleSend_while_pending_sends :
    awaitingState.isTyping = true ∧
      (handleSend helloProxy awaitingState).requests =
          [{ url := "/api/chat", method := "POST", body := .obj [("message", .str "and more")] }] ∧
      (handleSend helloProxy awaitingState).awaiting
        = some ⟨[{ message := .str "hi", sender := "user", direction := "outgoing" },
            { message := .str "and more", sender := "user", direction := "outgoing" }], true, "and more"⟩ ∧
      (handleSend helloProxy awaitingState).final
        = ⟨[{ message := .str "hi", sender := "user", direction := "outgoing" },
            { message := .str "and more", sender := "user", direction := "outgoing" },
                { message := .str "Hello!", sender := "bot", direction := "incoming" }], false, ""⟩ ∧
      (handleSend helloProxy awaitingState).final.messages.length
        ≠ awaitingState.messages.length :=
  ⟨rfl, rfl, rfl, rfl, by decide⟩

/-- C3, amended. `handleSend` does not test the pending flag. In a pending
state a blank input is a no-op, and an input that is not empty after trimming
is sent as it is from an idle state: one POST to `/api/chat` with the input as
`message` is issued, the turn with that message, sender `user` and direction
`outgoing` is appended while the call is outstanding, and on completion the
transcript holds that turn and one turn with sender `bot` and direction
`incoming`, and the flag is false. -/
theorem handleSend_ignores_pending (fetch : ProxyCall → Except JSError FetchResponse)
    (s : ChatState) (hpending : s.isTyping = true) :
    (trim s.inputValue = "" → handleSend fetch s = ⟨[], none, s⟩) ∧
    (trim s.inputValue ≠ "" →
      (handleSend fetch s).requests =
          [{ url := "/api/chat", method := "POST", body := .obj [("message", .str s.inputValue)] }] ∧
      (handleSend fetch s).awaiting
        = some { s with messages := s.messages ++
            [{ message := .str s.inputValue, sender := "user", direction := "outgoing" }] } ∧
      (handleSend fetch s).final = (handleSend fetch { s with isTyping := false }).final ∧
      (handleSend fetch s).final.isTyping = false ∧
      ∃ reply : JSVal, (handleSend fetch s).final.messages
        = s.messages ++
            [{ message := .str s.inputValue, sender := "user", direction := "outgoing" },
                { message := reply, sender := "bot", direction := "incoming" }]) := by
  refine ⟨handleSend_of_trim_empty fetch s, fun hm => ?_⟩
  obtain ⟨reply, hrun⟩ := handleSend_of_trim_ne_empty fetch s hm
  refine ⟨by rw [hrun], by rw [hrun, ← hpending], ?_, by rw [hrun], reply, by rw [hrun]; simp⟩
  simp [handleSend, hm]

theorem handleSend_ignores_pending_witness :
    (trim awaitingState.inputValue = "" →
      handleSend helloProxy awaitingState = ⟨[], none, awaitingState⟩) ∧
    (trim awaitingState.inputValue ≠ "" →
      (handleSend helloProxy awaitingState).requests =
          [{ url := "/api/chat", method := "POST", body := .obj [("message", .str awaitingState.inputValue)] }] ∧
      (handleSend helloProxy awaitingState).awaiting
        = some { awaitingState with
            messages := awaitingState.messages ++
                [{ message := .str awaitingState.inputValue, sender := "user", direction := "outgoing" }] } ∧
      (handleSend helloProxy awaitingState).final
        = (handleSend helloProxy { awaitingState with isTyping := false }).final ∧
      (handleSend helloProxy awaitingState).final.isTyping = false ∧
      ∃ reply : JSVal, (handleSend helloProxy awaitingState).final.messages
        = awaitingState.messages ++
            [{ message := .str awaitingState.inputValue, sender := "user", direction := "outgoing" }, { message := reply, sender := "bot", direction := "incoming" }]) :=
  handleSend_ignores_pending helloProxy awaitingState rfl

/-! ## The proxy alone -/

/-- C7. For every POST request, whatever its body, when `OPENAI_API_KEY` is
absent or empty the handler answers 500 with an error body and makes no
upstream call; the body is not looked at, so this holds for a missing or
blank message too. -/
theorem handler_without_credential (apiKey : Option String)
    (fetch : UpstreamRequest → Except JSError FetchResponse) (body : JSVal)
    (hkey : apiKey = none ∨ apiKey = some "") :
    handler apiKey fetch ⟨"POST", body⟩
      = (⟨500, (JSVal.obj [("error", (.str "OpenAI API key is not configured on the server"))])⟩, []) := by
  rcases hkey with h | h <;> subst h <;> simp [handler, errorBody]

theorem handler_without_credential_witness :
    handler none (fun _ => .ok ⟨200, .ok .null⟩) ⟨"POST", .undefined⟩
      = (⟨500, (JSVal.obj [("error", (.str "OpenAI API key is not configured on the server"))])⟩, []) :=
  handler_without_credential none (fun _ => .ok ⟨200, .ok .null⟩) .undefined (Or.inl rfl)

theorem handler_of_valid (key : String) (hkey : key ≠ "")
    (fetch : UpstreamRequest → Except JSError FetchResponse)
    (fields : List (String × JSVal)) (m : String)
    (hmsg : lookup "message" fields = some (.str m)) (hm : trim m ≠ "") :
    handler (some key) fetch ⟨"POST", .obj fields⟩ =
      (match fetch (completionRequest key (.str m)) with
        | .error error =>
          ⟨500, (JSVal.obj [("error", (jsOr (.str error.message) (.str "Internal server error")))])⟩
        | .ok response =>
          match (if !response.ok then upstreamFailure response else upstreamSuccess response) with
          | .ok res => res
          | .error error =>
            ⟨500, (JSVal.obj [("error", (jsOr (.str error.message) (.str "Internal server error")))])⟩,
       [completionRequest key (.str m)]) := by
  have hne : m ≠ "" := ne_empty_of_trim_ne_empty m hm
  simp only [handler, handlerTry, destructure, getProp, hmsg, Option.getD, messageMissing,
    truthy]
  cases hfetch : fetch (completionRequest key (.str m)) with
  | error e => simp [hkey, hm, hne, errorBody]
  | ok response =>
    cases hok : response.ok with
    | false =>
      cases hres : upstreamFailure response <;> simp [hres, hkey, hm, hne, hok, errorBody]
    | true =>
      cases hres : upstreamSuccess response <;> simp [hres, hkey, hm, hne, hok, errorBody]

theorem getProp_ok_of_not_nullish (v : JSVal) (key : String)
    (hnull : v ≠ .null) (hundef : v ≠ .undefined) : ∃ w, getProp v key = .ok w := by
  cases v with
  | undefined => exact absurd rfl hundef
  | null => exact absurd rfl hnull
  | bool b => exact ⟨_, rfl⟩
  | num n => exact ⟨_, rfl⟩
  | str t => exact ⟨_, rfl⟩
  | arr items => exact ⟨_, rfl⟩
  | obj fields => exact ⟨_, rfl⟩

theorem ok_false_of_status (status : Nat) (json : Except JSError JSVal)
    (h : ¬ (200 ≤ status ∧ status ≤ 299)) : (FetchResponse.mk status json).ok = false := by
  simp only [FetchResponse.ok]
  by_contra hc
  simp at hc
  exact h ⟨hc.1, hc.2⟩

theorem ok_true_of_status (status : Nat) (json : Except JSError JSVal)
    (h : 200 ≤ status ∧ status ≤ 299) : (FetchResponse.mk status json).ok = true := by
  simp [FetchResponse.ok, h.1, h.2]

theorem handler_of_upstream_failure (key : String) (hkey : key ≠ "")
    (fetch : UpstreamRequest → Except JSError FetchResponse)
    (fields : List (String × JSVal)) (m : String)
    (hmsg : lookup "message" fields = some (.str m)) (hm : trim m ≠ "")
    (status : Nat) (errorData err : JSVal)
    (hfetch : fetch (completionRequest key (.str m)) = .ok ⟨status, .ok errorData⟩)
    (hstatus : ¬ (200 ≤ status ∧ status ≤ 299))
    (herr : getProp errorData "error" = .ok err) :
    handler (some key) fetch ⟨"POST", .obj fields⟩
      = (⟨status, (JSVal.obj [("error", (failureDetail status err))])⟩, [completionRequest key (.str m)]) := by
  rw [handler_of_valid key hkey fetch fields m hmsg hm, hfetch]
  simp [ok_false_of_status status _ hstatus, upstreamFailure, herr, errorBody]

/-- C8 fails on the code for an upstream failure whose body cannot be read.
With a valid request, an upstream answer 502 whose body is not JSON makes
`response.json()` reject before the status is relayed: the handler answers 500
with the text of the parse error, not 502. An upstream answer 503 whose body
is the JSON value `null` is answered with 500 too. The same status 502 with a
JSON object as body is relayed as 502. -/
theorem handler_unreadable_failure_body :
    handler (some "sk-test") badGateway hiRequest
        = (⟨500, .obj [("error", .str "Unexpected token < in JSON at position 0")]⟩,
            [completionRequest "sk-test" (.str "hi")]) ∧
      (handler (some "sk-test") badGateway hiRequest).1.status ≠ 502 ∧
      (handler (some "sk-test") nullFailure hiRequest).1.status = 500 ∧
      (handler (some "sk-test") nullFailure hiRequest).1.status ≠ 503 ∧
      (handler (some "sk-test") (failingUpstream 502) hiRequest).1
        = ⟨502, .obj [("error", .str "upstream says no")]⟩ :=
  ⟨rfl, by decide, rfl, by decide, rfl⟩

/-- The relay of an upstream failure where it works: for every valid POST
request (credential configured, message not empty after trimming) and every
upstream response with a status `s` outside 200 to 299 whose body parses as
JSON to a value other than `null`, the handler's response has status exactly
`s` and a body `{ error: detail }`, after exactly one upstream call. -/
theorem handler_relays_failure_status (key : String) (hkey : key ≠ "")
    (fetch : UpstreamRequest → Except JSError FetchResponse)
    (fields : List (String × JSVal)) (m : String)
    (hmsg : lookup "message" fields = some (.str m)) (hm : trim m ≠ "")
    (status : Nat) (errorData : JSVal)
    (hfetch : fetch (completionRequest key (.str m)) = .ok ⟨status, .ok errorData⟩)
    (hstatus : ¬ (200 ≤ status ∧ status ≤ 299))
    (hnull : errorData ≠ .null) (hundef : errorData ≠ .undefined) :
    (handler (some key) fetch ⟨"POST", .obj fields⟩).1.status = status ∧
      (∃ detail : JSVal,
        (handler (some key) fetch ⟨"POST", .obj fields⟩).1.body = (JSVal.obj [("error", detail)])) ∧
      (handler (some key) fetch ⟨"POST", .obj fields⟩).2 = [completionRequest key (.str m)] := by
  obtain ⟨err, herr⟩ := getProp_ok_of_not_nullish errorData "error" hnull hundef
  rw [handler_of_upstream_failure key hkey fetch fields m hmsg hm status errorData err hfetch
    hstatus herr]
  exact ⟨rfl, ⟨_, rfl⟩, rfl⟩

theorem handler_relays_failure_status_witness :
    (handler (some "sk-test") (failingUpstream 404) ⟨"POST", .obj [("message", .str "hi")]⟩).1.status
        = 404 ∧
      (∃ detail : JSVal,
        (handler (some "sk-test") (failingUpstream 404) ⟨"POST", .obj [("message", .str "hi")]⟩).1.body
          = (JSVal.obj [("error", detail)])) ∧
      (handler (some "sk-test") (failingUpstream 404) ⟨"POST", .obj [("message", .str "hi")]⟩).2
        = [completionRequest "sk-test" (.str "hi")] :=
  handler_relays_failure_status "sk-test" (by decide) (failingUpstream 404)
    [("message", .str "hi")] "hi" rfl (by decide) 404
    (.obj [("error", .obj [("message", .str "upstream says no")])]) rfl (by decide)
    (by simp) (by simp)

/-- C9, as stated, fails: with a valid request and an upstream answer 200
whose first choice has a message without content, or with content `null`, the
handler answers 200, with the body `{ response: undefined }` (sent as the
empty object) and `{ response: null }`. -/
theorem handler_absent_content_is_200 :
    handler (some "sk-test") (answeringUpstream noContentCompletion) hiRequest
        = (⟨200, .obj [("response", .undefined)]⟩, [completionRequest "sk-test" (.str "hi")]) ∧
      jsonRoundTrip (.obj [("response", .undefined)]) = .obj [] ∧
      handler (some "sk-test") (answeringUpstream nullContentCompletion) hiRequest
        = (⟨200, .obj [("response", .null)]⟩, [completionRequest "sk-test" (.str "hi")]) :=
  ⟨rfl, rfl, rfl⟩

/-- C9, amended. For every valid POST request (credential configured, message
not empty after trimming) where the upstream answers with a status from 200
to 299 and a JSON object in which `choices` is missing, or is the empty array,
or has a first choice without a `message`, the handler answers 500 with a
body `{ error: detail }`, and so not 200. -/
theorem handler_no_reply_is_500 (key : String) (hkey : key ≠ "")
    (fetch : UpstreamRequest → Except JSError FetchResponse)
    (fields : List (String × JSVal)) (m : String)
    (hmsg : lookup "message" fields = some (.str m)) (hm : trim m ≠ "")
    (status : Nat) (result : List (String × JSVal))
    (hfetch : fetch (completionRequest key (.str m)) = .ok ⟨status, .ok (.obj result)⟩)
    (hstatus : 200 ≤ status ∧ status ≤ 299)
    (hshape : lookup "choices" result = none ∨ lookup "choices" result = some (.arr []) ∨
      ∃ choice rest, lookup "choices" result = some (.arr (.obj choice :: rest)) ∧
        lookup "message" choice = none) :
    (handler (some key) fetch ⟨"POST", .obj fields⟩).1.status = 500 ∧
      (handler (some key) fetch ⟨"POST", .obj fields⟩).1.status ≠ 200 ∧
      ∃ detail : JSVal,
        (handler (some key) fetch ⟨"POST", .obj fields⟩).1.body = (JSVal.obj [("error", detail)]) := by
  rw [handler_of_valid key hkey fetch fields m hmsg hm, hfetch]
  rcases hshape with h | h | ⟨choice, rest, h, hc⟩
  · simp [ok_true_of_status status _ hstatus, upstreamSuccess, getProp, getIndex, h]
  · simp [ok_true_of_status status _ hstatus, upstreamSuccess, getProp, getIndex, h]
  · simp [ok_true_of_status status _ hstatus, upstreamSuccess, getProp, getIndex, h, hc]

theorem handler_no_reply_is_500_witness :
    (handler (some "sk-test") (answeringUpstream (.obj [("choices", .arr [])]))
        ⟨"POST", .obj [("message", .str "hi")]⟩).1.status = 500 ∧
      (handler (some "sk-test") (answeringUpstream (.obj [("choices", .arr [])]))
        ⟨"POST", .obj [("message", .str "hi")]⟩).1.status ≠ 200 ∧
      ∃ detail : JSVal,
        (handler (some "sk-test") (answeringUpstream (.obj [("choices", .arr [])]))
          ⟨"POST", .obj [("message", .str "hi")]⟩).1.body = (JSVal.obj [("error", detail)]) :=
  handler_no_reply_is_500 "sk-test" (by decide) (answeringUpstream (.obj [("choices", .arr [])]))
    [("message", .str "hi")] "hi" rfl (by decide) 200 [("choices", .arr [])] rfl (by decide)
    (Or.inr (Or.inl rfl))

/-- For a POST request with the credential configured and a body that is
present, a message that is missing, `null`, empty or blank is answered with
400 and `Message is required`, without an upstream call. -/
theorem handler_message_required (key : String) (hkey : key ≠ "")
    (fetch : UpstreamRequest → Except JSError FetchResponse)
    (fields : List (String × JSVal))
    (hmsg : lookup "message" fields = none ∨ lookup "message" fields = some .null ∨
      ∃ m, lookup "message" fields = some (.str m) ∧ trim m = "") :
    handler (some key) fetch ⟨"POST", .obj fields⟩
      = (⟨400, (JSVal.obj [("error", (.str "Message is required"))])⟩, []) := by
  rcases hmsg with h | h | ⟨m, h, hm⟩
  · simp [handler, handlerTry, destructure, getProp, h, messageMissing, truthy, errorBody, hkey]
  · simp [handler, handlerTry, destructure, getProp, h, messageMissing, truthy, errorBody, hkey]
  · by_cases hne : m = ""
    · simp [handler, handlerTry, destructure, getProp, h, messageMissing, truthy, errorBody, hkey, hne]
    · simp [handler, handlerTry, destructure, getProp, h, messageMissing, truthy, errorBody, hkey, hne, hm]

/-- C6 fails on the code for a request without a body: with the credential
configured and `req.body` undefined, destructuring `message` throws inside the
`try` block and the handler answers 500 with the text of the `TypeError`, not
400 with `Message is required`. No upstream call is made. -/
theorem handler_no_body_is_500 :
    handler (some "sk-test") badGateway emptyRequest
        = (⟨500, (JSVal.obj [("error", (.str (destructureError .undefined "message").message))])⟩, []) ∧
      (handler (some "sk-test") badGateway emptyRequest).1.status ≠ 400 ∧
      (handler (some "sk-test") badGateway ⟨"POST", .obj []⟩)
        = (⟨400, (JSVal.obj [("error", (.str "Message is required"))])⟩, []) :=
  ⟨rfl, by decide, rfl⟩

/-! ## End to end: the controller calling the proxy -/

theorem viaHandler_proxyCall (apiKey : Option String)
    (upstream : UpstreamRequest → Except JSError FetchResponse) (m : String) :
    viaHandler apiKey upstream { url := "/api/chat", method := "POST", body := .obj [("message", .str m)] }
      = .ok ⟨(handler apiKey upstream ⟨"POST", .obj [("message", .str m)]⟩).1.status,
          .ok (jsonRoundTrip (handler apiKey upstream ⟨"POST", .obj [("message", .str m)]⟩).1.body)⟩ := by
  simp [viaHandler, jsonRoundTrip, jsonRoundTripFields]

theorem handleSend_final_of_fetch (fetch : ProxyCall → Except JSError FetchResponse)
    (t : List Turn) (typing : Bool) (m : String) (hm : trim m ≠ "") (response : FetchResponse)
    (hfetch : fetch { url := "/api/chat", method := "POST", body := .obj [("message", .str m)] } = .ok response) :
    (handleSend fetch ⟨t, typing, m⟩).final
      = ⟨t ++ [{ message := .str m, sender := "user", direction := "outgoing" },
            { message := (match readReply response with
              | .ok botResponse => botResponse
              | .error error => .str (failureText error)), sender := "bot", direction := "incoming" }], false, ""⟩ := by
  simp only [handleSend, hm, if_false, hfetch]
  cases readReply response <;> simp

theorem readReply_of_error_text (status : Nat) (hstatus : ¬ (200 ≤ status ∧ status ≤ 299))
    (text : String) (htext : text ≠ "") :
    readReply ⟨status, .ok (jsonRoundTrip ((JSVal.obj [("error", (.str text))])))⟩ = .error ⟨text⟩ := by
  simp [readReply, ok_false_of_status status _ hstatus, errorBody, jsonRoundTrip,
    jsonRoundTripFields, getProp, lookup, jsOr, truthy, htext, jsToString]

/-- C1. For every text `m` that is not empty after trimming, submitted from
the idle state with transcript `t`, and every reply text `c`: when the request
reaches the handler as a POST with the credential configured and the upstream
answers with a status from 200 to 299 and a body whose `choices[0]` has a
`message` with `content` `c`, the handler makes exactly one upstream call,
whose messages are the system persona and the user's `m`, answers 200 with
`{ response: c }`, and the controller issues one POST to `/api/chat` with the
body `{ message: m }` and ends with the transcript `t` followed by the turn
with message `m`, sender `user`, direction `outgoing` and the turn with
message `c`, sender `bot`, direction `incoming`, and with the pending flag
false. -/
theorem end_to_end_success (key : String) (hkey : key ≠ "")
    (upstream : UpstreamRequest → Except JSError FetchResponse)
    (t : List Turn) (m c : String) (hm : trim m ≠ "")
    (status : Nat) (result choice msg : List (String × JSVal)) (rest : List JSVal)
    (hup : upstream (completionRequest key (.str m)) = .ok ⟨status, .ok (.obj result)⟩)
    (hstatus : 200 ≤ status ∧ status ≤ 299)
    (hchoices : lookup "choices" result = some (.arr (.obj choice :: rest)))
    (hmessage : lookup "message" choice = some (.obj msg))
    (hcontent : lookup "content" msg = some (.str c)) :
    handler (some key) upstream ⟨"POST", .obj [("message", .str m)]⟩
        = (⟨200, .obj [("response", .str c)]⟩, [completionRequest key (.str m)]) ∧
      (completionRequest key (.str m)).messages
        = [{ role := "system", content := .str systemPrompt },
            { role := "user", content := .str m }] ∧
      (handleSend (viaHandler (some key) upstream) ⟨t, false, m⟩).requests =
          [{ url := "/api/chat", method := "POST", body := .obj [("message", .str m)] }] ∧
      (handleSend (viaHandler (some key) upstream) ⟨t, false, m⟩).final.messages
        = t ++ [{ message := .str m, sender := "user", direction := "outgoing" },
            { message := .str c, sender := "bot", direction := "incoming" }] ∧
      (handleSend (viaHandler (some key) upstream) ⟨t, false, m⟩).final.isTyping = false := by
  have hhandler : handler (some key) upstream ⟨"POST", .obj [("message", .str m)]⟩
      = (⟨200, .obj [("response", .str c)]⟩, [completionRequest key (.str m)]) := by
    rw [handler_of_valid key hkey upstream [("message", .str m)] m (by simp [lookup]) hm, hup]
    simp [ok_true_of_status status _ hstatus, upstreamSuccess, getProp, getIndex, hchoices,
      hmessage, hcontent]
  have hfetch := viaHandler_proxyCall (some key) upstream m
  rw [hhandler] at hfetch
  have hfinal := handleSend_final_of_fetch (viaHandler (some key) upstream) t false m hm _ hfetch
  obtain ⟨reply, hrun⟩ := handleSend_of_trim_ne_empty (viaHandler (some key) upstream)
    ⟨t, false, m⟩ hm
  refine ⟨hhandler, rfl, by rw [hrun], ?_, by rw [hfinal]⟩
  rw [hfinal]
  simp [readReply, FetchResponse.ok, jsonRoundTrip, jsonRoundTripFields, getProp, lookup]

theorem end_to_end_success_witness :
    handler (some "sk-test") (answeringUpstream helloCompletion)
          ⟨"POST", .obj [("message", .str "hi")]⟩
        = (⟨200, .obj [("response", .str "Hello!")]⟩, [completionRequest "sk-test" (.str "hi")]) ∧
      (completionRequest "sk-test" (.str "hi")).messages
        = [{ role := "system", content := .str systemPrompt },
            { role := "user", content := .str "hi" }] ∧
      (handleSend (viaHandler (some "sk-test") (answeringUpstream helloCompletion))
        ⟨[], false, "hi"⟩).requests =
            [{ url := "/api/chat", method := "POST", body := .obj [("message", .str "hi")] }] ∧
      (handleSend (viaHandler (some "sk-test") (answeringUpstream helloCompletion))
        ⟨[], false, "hi"⟩).final.messages = [] ++
            [{ message := .str "hi", sender := "user", direction := "outgoing" },
                { message := .str "Hello!", sender := "bot", direction := "incoming" }] ∧
      (handleSend (viaHandler (some "sk-test") (answeringUpstream helloCompletion))
        ⟨[], false, "hi"⟩).final.isTyping = false :=
  end_to_end_success "sk-test" (by decide) (answeringUpstream helloCompletion) [] "hi" "Hello!"
    (by decide) 200 [("choices", .arr [.obj [("message", .obj [("content", .str "Hello!")])]])]
    [("message", .obj [("content", .str "Hello!")])] [("content", .str "Hello!")] [] rfl
    (by decide) rfl rfl rfl

/-- C4 fails on the code: for the message `hi` sent from the idle state, with
the credential configured and an upstream answer 429, the handler answers 429
with the rate-limit text, and the controller, finding neither `API key`,
`insufficient_quota`, `billing` nor `rate_limit` in it, shows it behind the
prefix `Error: `, not as the rate-limit text itself. -/
theorem rate_limit_turn_is_prefixed :
    (handler (some "sk-test") (failingUpstream 429) hiRequest).1
        = ⟨429, (JSVal.obj [("error", (.str "Rate limit exceeded. Please wait a moment and try again."))])⟩ ∧
      (handleSend (viaHandler (some "sk-test") (failingUpstream 429)) ⟨[], false, "hi"⟩).final.messages
        = [{ message := .str "hi", sender := "user", direction := "outgoing" },
            { message := .str "Error: Rate limit exceeded. Please wait a moment and try again.", sender := "bot", direction := "incoming" }] ∧
      "Error: Rate limit exceeded. Please wait a moment and try again."
        ≠ "Rate limit exceeded. Please wait a moment and try again." ∧
      failureText ⟨"rate_limit"⟩ = "Rate limit exceeded. Please wait a moment and try again." :=
  ⟨rfl, rfl, by decide, rfl⟩

/-- C5, as stated, fails: for the message `hi` sent from the idle state, with
the credential configured and an upstream answer 401, the incoming turn is the
controller's `API key error` text, not the auth-failure text of the table. -/
theorem status_401_turn_differs :
    (handleSend (viaHandler (some "sk-test") (failingUpstream 401)) ⟨[], false, "hi"⟩).final.messages
        = [{ message := .str "hi", sender := "user", direction := "outgoing" },
            { message := .str "API key error: Please check your OpenAI API key configuration on the server.", sender := "bot", direction := "incoming" }] ∧
      "API key error: Please check your OpenAI API key configuration on the server."
        ≠ "API authentication failed. Please check the API key." :=
  ⟨rfl, by decide⟩

/-- C5, amended. For every message that is not empty after trimming, sent
from the idle state, when the request reaches the handler as a POST with the
credential configured and the upstream answers 401 with a JSON body other
than `null`, the handler answers 401 with `API authentication failed. Please
check your OpenAI API key.` and the turn appended by `handleSend` has sender
`bot`, direction `incoming` and as message exactly `API key error: Please
check your OpenAI API key configuration on the server.` -/
theorem auth_failure_turn (key : String) (hkey : key ≠ "")
    (upstream : UpstreamRequest → Except JSError FetchResponse)
    (t : List Turn) (m : String) (hm : trim m ≠ "") (errorData : JSVal)
    (hup : upstream (completionRequest key (.str m)) = .ok ⟨401, .ok errorData⟩)
    (hnull : errorData ≠ .null) (hundef : errorData ≠ .undefined) :
    (handler (some key) upstream ⟨"POST", .obj [("message", .str m)]⟩).1
        = ⟨401, (JSVal.obj [("error", (.str "API authentication failed. Please check your OpenAI API key."))])⟩ ∧
      (handleSend (viaHandler (some key) upstream) ⟨t, false, m⟩).final.messages
        = t ++ [{ message := .str m, sender := "user", direction := "outgoing" },
            { message := .str "API key error: Please check your OpenAI API key configuration on the server.", sender := "bot", direction := "incoming" }] := by
  obtain ⟨err, herr⟩ := getProp_ok_of_not_nullish errorData "error" hnull hundef
  have hhandler := handler_of_upstream_failure key hkey upstream [("message", .str m)] m
    (by simp [lookup]) hm 401 errorData err hup (by decide) herr
  have hdetail : failureDetail 401 err
      = .str "API authentication failed. Please check your OpenAI API key." := by
    simp [failureDetail]
  rw [hdetail] at hhandler
  have hfetch := viaHandler_proxyCall (some key) upstream m
  rw [hhandler] at hfetch
  have hfinal := handleSend_final_of_fetch (viaHandler (some key) upstream) t false m hm _ hfetch
  refine ⟨by rw [hhandler], ?_⟩
  rw [hfinal, readReply_of_error_text 401 (by decide) _ (by decide)]
  rfl

theorem auth_failure_turn_witness :
    (handler (some "sk-test") (failingUpstream 401) ⟨"POST", .obj [("message", .str "hi")]⟩).1
        = ⟨401, (JSVal.obj [("error", (.str "API authentication failed. Please check your OpenAI API key."))])⟩ ∧
      (handleSend (viaHandler (some "sk-test") (failingUpstream 401)) ⟨[], false, "hi"⟩).final.messages
        = [] ++ [{ message := .str "hi", sender := "user", direction := "outgoing" },
            { message := .str "API key error: Please check your OpenAI API key configuration on the server.", sender := "bot", direction := "incoming" }] :=
  auth_failure_turn "sk-test" (by decide) (failingUpstream 401) [] "hi" (by decide)
    (.obj [("error", .obj [("message", .str "upstream says no")])]) rfl (by simp) (by simp)

end Chat
